import Mathlib

/-!
Verification of the Backtest Simulation & Risk-Adjustment Engine.

Floats of the source are modelled as exact rationals (ℚ); a float hazard
(division by zero, NaN contamination, or an exception raised on an empty
array) is modelled as `Option.none` where the source can produce one.
Python's `round(x, 2)` (round-half-even) is modelled exactly on ℚ.
-/

/-- A price bar.  Field `open` of the source is spelled `open_price` because
`open` is a Lean keyword; it and `open_time` are carried for completeness but
never read by the functions under verification. -/
structure Candle where
  open_time : ℤ
  open_price : ℚ
  high : ℚ
  low : ℚ
  close : ℚ
  volume : ℚ
deriving DecidableEq, Repr, Inhabited

/-- Round-half-even to an integer, as Python's builtin `round`. -/
def roundHalfEvenZ (q : ℚ) : ℤ :=
  let n := ⌊q⌋
  let f := q - n
  if f < 1/2 then n
  else if 1/2 < f then n + 1
  else if n % 2 = 0 then n else n + 1

/-- Python `round(x, 2)`. -/
def pyRound2 (q : ℚ) : ℚ := (roundHalfEvenZ (q * 100) : ℚ) / 100

namespace TaEngine

/-- `app/services/ta_engine.py`, `calculate_rsi_wilders` (lines 92-117),
translated line by line.  The accumulator carries `(up, down, last item of
rs_list)`; `rs_list` starts as `[0]` and the function returns its last
element.  A `period` of zero raises `ZeroDivisionError` at the seed division,
caught by the surrounding `except` which returns `50.0`; that path is the
`period = 0` branch here. -/
def calculate_rsi_wilders (closes : List ℚ) (period : ℕ) : ℚ :=
  if closes = [] ∨ closes.length < period + 1 then 50
  else if period = 0 then 50
  else
    let deltas := (closes.zip closes.tail).map (fun p => p.2 - p.1)
    let seed := (deltas.take period).sum / (period : ℚ)
    let up0 := if 0 < seed then seed else 0
    let down0 := if seed < 0 then -seed else 0
    let step := fun (st : ℚ × ℚ × ℚ) (delta : ℚ) =>
      let upval := if 0 < delta then delta else 0
      let downval := if 0 < delta then 0 else -delta
      let up := (st.1 * ((period : ℚ) - 1) + upval) / (period : ℚ)
      let down := (st.2.1 * ((period : ℚ) - 1) + downval) / (period : ℚ)
      let rs := if down ≠ 0 then up / down else 0
      (up, down, 100 - 100 / (1 + rs))
    ((deltas.drop period).foldl step (up0, down0, 0)).2.2

/-- The `rsi` field of `ta_summary` (`ta_engine.py` lines 250-261): `50` for
fewer than 50 candles, otherwise `round(calculate_rsi_wilders(closes, 14), 2)`.
Lines 260-261 of the source are syntactically malformed (a stray `atr`
computation); the `rsi` entry of the returned mapping is modelled as the
surrounding code evidently constructs it.  No claim's result depends on this
value. -/
def ta_summary_rsi (candles : List Candle) : ℚ :=
  if candles.length < 50 then 50
  else pyRound2 (calculate_rsi_wilders (candles.map (·.close)) 14)

end TaEngine

/-- A strictly increasing 16-close series, the shortest length accepted by
`calculate_rsi_wilders` at period 14; its Wilder average loss is 0 and its
average gain is positive. -/
def increasingCloses16 : List ℚ :=
  [1, 2, 3, 4, 5, 6, 7, 8, 9, 10, 11, 12, 13, 14, 15, 16]

/-- A constant 16-close series: Wilder average gain and average loss both 0. -/
def constantCloses16 : List ℚ := List.replicate 16 5

unseal Rat.add Rat.mul Rat.inv Rat.sub Rat.ofScientific in
/-- C3: the claim says RSI is 100 when the Wilder average loss is 0 and the
average gain is positive, and 50 when both are 0.  The source instead sets
`rs = 0` whenever `down == 0` (`ta_engine.py` line 113), so
`RSI = 100 - 100/(1+0) = 0` in both situations: a strictly increasing series
(average loss 0, average gain 1) evaluates to 0, not 100, and a constant
series (both averages 0) also evaluates to 0, not 50. -/
theorem c3_rsi_saturation_eval :
    TaEngine.calculate_rsi_wilders increasingCloses16 14 = 0 ∧
    TaEngine.calculate_rsi_wilders constantCloses16 14 = 0 := by
  constructor <;> decide

namespace SignalEngine

/-- The indicator mapping consumed by `calculate_signal`
(`app/services/signal_engine.py` lines 11-16).  `stoch_k` is read by the
source (line 44) but never used afterwards; it is carried for fidelity. -/
structure TaData where
  rsi : ℚ
  macd_histogram : ℚ
  macd_direction : String
  stoch_k : ℚ
  stoch_signal : String
  cci : ℚ
  ema_fast : ℚ
  ema_slow : ℚ
deriving DecidableEq, Repr

/-- RSI branch of the vote accumulation (`signal_engine.py` lines 22-31),
as `(bullish, bearish, strength)` increments. -/
def voteRSI (rsi : ℚ) : ℚ × ℚ × ℚ :=
  if rsi < 30 then (2, 0, 1)
  else if rsi < 40 then (1, 0, 0)
  else if 70 < rsi then (0, 2, 1)
  else if 60 < rsi then (0, 1, 0)
  else (0, 0, 0)

/-- MACD-histogram branch (lines 33-42); the trailing `signal_strength += 0.5`
is unconditional and is folded into every case. -/
def voteMACD (hist : ℚ) : ℚ × ℚ × ℚ :=
  if 0 < hist then
    (if 0.001 < hist then (2, 0, 0.5) else (1.5, 0, 0.5))
  else
    (if hist < -0.001 then (0, 2, 0.5) else (0, 1.5, 0.5))

/-- Stochastic branch (lines 44-52). -/
def voteStoch (sig : String) : ℚ × ℚ × ℚ :=
  if sig = "oversold" then (1.5, 0, 0.5)
  else if sig = "overbought" then (0, 1.5, 0.5)
  else (0, 0, 0)

/-- CCI branch (lines 54-59). -/
def voteCCI (cci : ℚ) : ℚ × ℚ × ℚ :=
  if 100 < |cci| then (if 100 < cci then (1, 0, 1) else (0, 1, 1))
  else (0, 0, 0)

/-- EMA trend branch (lines 61-67). -/
def voteEMA (ema_fast ema_slow : ℚ) : ℚ × ℚ × ℚ :=
  if 0 < ema_fast ∧ 0 < ema_slow then
    (if ema_slow < ema_fast then (2, 0, 1) else (0, 2, 1))
  else (0, 0, 0)

/-- The accumulated `bullish_score`. -/
def bullishScore (t : TaData) : ℚ :=
  (voteRSI t.rsi).1 + (voteMACD t.macd_histogram).1 + (voteStoch t.stoch_signal).1 +
    (voteCCI t.cci).1 + (voteEMA t.ema_fast t.ema_slow).1

/-- The accumulated `bearish_score`. -/
def bearishScore (t : TaData) : ℚ :=
  (voteRSI t.rsi).2.1 + (voteMACD t.macd_histogram).2.1 + (voteStoch t.stoch_signal).2.1 +
    (voteCCI t.cci).2.1 + (voteEMA t.ema_fast t.ema_slow).2.1

/-- The accumulated `signal_strength`. -/
def signalStrength (t : TaData) : ℚ :=
  (voteRSI t.rsi).2.2 + (voteMACD t.macd_histogram).2.2 + (voteStoch t.stoch_signal).2.2 +
    (voteCCI t.cci).2.2 + (voteEMA t.ema_fast t.ema_slow).2.2

/-- `total_score = bullish_score + bearish_score` (line 69). -/
def totalScore (t : TaData) : ℚ := bullishScore t + bearishScore t

/-- `bullish_prob = (bullish_score / total_score) * 100` (line 73), computed
by the source only after the `total_score == 0` early return. -/
def bullishProb (t : TaData) : ℚ := bullishScore t / totalScore t * 100

/-- Result mapping of `calculate_signal`; the wall-clock `timestamp` entry is
outside the model. -/
structure SignalResult where
  trend : String
  probability : ℚ
  confidence : ℚ
  signal_strength : ℚ
  risk_reward : ℚ
  rsi : ℚ
  macd_direction : String
  stochastic_signal : String
deriving DecidableEq, Repr

/-- `_neutral_signal` (lines 110-121). -/
def _neutral_signal : SignalResult :=
  { trend := "NEUTRAL", probability := 50, confidence := 0, signal_strength := 0,
    risk_reward := 1, rsi := 50, macd_direction := "neutral", stochastic_signal := "neutral" }

/-- Python `round(x, 1)`. -/
def pyRound1 (q : ℚ) : ℚ := (roundHalfEvenZ (q * 10) : ℚ) / 10

/-- `calculate_signal` (lines 5-104) on a populated indicator mapping.
The source's `if not ta_data` guard and its `except` handler both return
`_neutral_signal()`; neither can fire on a well-typed `TaData`. -/
def calculate_signal (t : TaData) : SignalResult :=
  if totalScore t = 0 then _neutral_signal
  else
    let bp := bullishProb t
    let strength := signalStrength t
    let confidence := min (strength * 10) 100
    let tp : String × ℚ :=
      if 65 < bp then ("BULLISH", min bp 95)
      else if bp < 35 then ("BEARISH", min (100 - bp) 95)
      else ("NEUTRAL", 50)
    let risk_reward : ℚ :=
      if tp.1 = "BULLISH" then 1.5 + confidence / 100
      else if tp.1 = "BEARISH" then 1.5 + confidence / 100
      else 1
    { trend := tp.1, probability := pyRound1 tp.2, confidence := pyRound1 confidence,
      signal_strength := pyRound2 strength, risk_reward := pyRound2 risk_reward,
      rsi := pyRound1 t.rsi, macd_direction := t.macd_direction,
      stochastic_signal := t.stoch_signal }

theorem voteRSI_of_gt70 {r : ℚ} (h : 70 < r) : voteRSI r = (0, 2, 1) := by
  unfold voteRSI
  rw [if_neg (by linarith), if_neg (by linarith), if_pos h]

theorem voteMACD_bounds (h : ℚ) : 0 ≤ (voteMACD h).1 ∧ 0 ≤ (voteMACD h).2.1 := by
  unfold voteMACD; split_ifs <;> norm_num

theorem voteStoch_bounds (s : String) : 0 ≤ (voteStoch s).1 ∧ 0 ≤ (voteStoch s).2.1 := by
  unfold voteStoch; split_ifs <;> norm_num

theorem voteCCI_bounds (c : ℚ) : 0 ≤ (voteCCI c).1 ∧ 0 ≤ (voteCCI c).2.1 := by
  unfold voteCCI; split_ifs <;> norm_num

theorem voteEMA_bounds (f s : ℚ) : 0 ≤ (voteEMA f s).1 ∧ 0 ≤ (voteEMA f s).2.1 := by
  unfold voteEMA; split_ifs <;> norm_num

end SignalEngine

/-- C9: past the overbought threshold (RSI > 70) the RSI branch contributes
only to `bearish_score` (a constant +2 over the whole region), so for fixed
other inputs both the bullish score and the bullish probability are constant
— in particular non-increasing — as RSI increases within the region; the
total score stays positive, so the probability is well defined. -/
theorem c9_rsi_overbought_monotone (t : SignalEngine.TaData) (r1 r2 : ℚ)
    (h1 : 70 < r1) (h12 : r1 ≤ r2) :
    SignalEngine.bullishScore { t with rsi := r2 } ≤
      SignalEngine.bullishScore { t with rsi := r1 } ∧
    0 < SignalEngine.totalScore { t with rsi := r1 } ∧
    SignalEngine.bullishProb { t with rsi := r2 } ≤
      SignalEngine.bullishProb { t with rsi := r1 } := by
  have h2 : 70 < r2 := lt_of_lt_of_le h1 h12
  have hb : SignalEngine.bullishScore { t with rsi := r2 } =
      SignalEngine.bullishScore { t with rsi := r1 } := by
    unfold SignalEngine.bullishScore
    rw [show ({ t with rsi := r2 } : SignalEngine.TaData).rsi = r2 from rfl,
      show ({ t with rsi := r1 } : SignalEngine.TaData).rsi = r1 from rfl,
      SignalEngine.voteRSI_of_gt70 h1, SignalEngine.voteRSI_of_gt70 h2]
  have hbe : SignalEngine.bearishScore { t with rsi := r2 } =
      SignalEngine.bearishScore { t with rsi := r1 } := by
    unfold SignalEngine.bearishScore
    rw [show ({ t with rsi := r2 } : SignalEngine.TaData).rsi = r2 from rfl,
      show ({ t with rsi := r1 } : SignalEngine.TaData).rsi = r1 from rfl,
      SignalEngine.voteRSI_of_gt70 h1, SignalEngine.voteRSI_of_gt70 h2]
  have hpos : 0 < SignalEngine.totalScore { t with rsi := r1 } := by
    have hm := SignalEngine.voteMACD_bounds t.macd_histogram
    have hs := SignalEngine.voteStoch_bounds t.stoch_signal
    have hc := SignalEngine.voteCCI_bounds t.cci
    have he := SignalEngine.voteEMA_bounds t.ema_fast t.ema_slow
    unfold SignalEngine.totalScore SignalEngine.bullishScore SignalEngine.bearishScore
    rw [show ({ t with rsi := r1 } : SignalEngine.TaData).rsi = r1 from rfl,
      SignalEngine.voteRSI_of_gt70 h1]
    simp only
    linarith [hm.1, hm.2, hs.1, hs.2, hc.1, hc.2, he.1, he.2]
  refine ⟨hb.le, hpos, ?_⟩
  unfold SignalEngine.bullishProb SignalEngine.totalScore
  rw [hb, hbe]

/-- A concrete indicator mapping used to witness `c9_rsi_overbought_monotone`. -/
def taSample : SignalEngine.TaData where
  rsi := 75
  macd_histogram := 1
  macd_direction := "bullish"
  stoch_k := 50
  stoch_signal := "neutral"
  cci := 0
  ema_fast := 2
  ema_slow := 1

/-- Witness for `c9_rsi_overbought_monotone` at a concrete indicator mapping
and RSI values 75 ≤ 85. -/
theorem c9_rsi_overbought_monotone_witness :
    (70:ℚ) < 75 ∧ (75:ℚ) ≤ 85 ∧
    SignalEngine.bullishScore { taSample with rsi := 85 } ≤
      SignalEngine.bullishScore { taSample with rsi := 75 } :=
  ⟨by norm_num, by norm_num,
    (c9_rsi_overbought_monotone taSample 75 85 (by norm_num) (by norm_num)).1⟩

namespace Backtest

/-- The `direction` actually seen by `run_backtest`
(`app/routers/backtest.py` line 35).  `calculate_signal(window, ta)` (line 31)
passes the candle list where the signal engine expects the indicator mapping;
`ta_data.get("rsi", 50)` then raises `AttributeError`, the engine's `except`
handler returns `_neutral_signal()`, and that dict carries a `"trend"` key but
no `"direction"` key, so `signal.get("direction", "neutral")` is `"neutral"`
on every bar, for every input. -/
def backtestDirection : String := "neutral"

/-- The loop state of `run_backtest` (`backtest.py` lines 23-26):
`position` is the source's int flag (0 = FLAT, 1 = LONG). -/
structure BTState where
  trades : List ℚ
  equity : List ℚ
  position : ℕ
  entry_price : ℚ
deriving DecidableEq, Repr

/-- State before the loop: empty ledger, equity `[1.0]`, FLAT, entry 0. -/
def initState : BTState := ⟨[], [1], 0, 0⟩

/-- One iteration of the `for i in range(min_window, len(candles))` loop
(`backtest.py` lines 28-56): EXIT block, then ENTRY block, then the
"close position dacă rămâne deschis" block, which the source places inside
the loop, keyed on the final bar's close, deduplicated by pnl value, and
which does not reset `position`. -/
def btStep (candles : List Candle) (rsi_buy rsi_sell : ℚ) (s : BTState) (i : ℕ) : BTState :=
  let window := candles.take (i + 1)
  let rsi := TaEngine.ta_summary_rsi window
  let direction := backtestDirection
  let current_price := (candles.getD i default).close
  let s1 :=
    if s.position = 1 ∧ (direction = "bearish" ∨ rsi_sell < rsi) then
      let pnl := (current_price - s.entry_price) / s.entry_price
      { trades := s.trades ++ [pnl],
        equity := s.equity ++ [s.equity.getLastD 1 * (1 + pnl)],
        position := 0, entry_price := s.entry_price }
    else s
  let s2 :=
    if s1.position = 0 ∧ (direction = "bullish" ∧ rsi < rsi_buy) then
      { s1 with position := 1, entry_price := current_price }
    else s1
  if s2.position = 1 then
    let final_pnl := ((candles.getD (candles.length - 1) default).close - s2.entry_price) /
      s2.entry_price
    if final_pnl ∈ s2.trades then s2
    else
      { trades := s2.trades ++ [final_pnl],
        equity := s2.equity ++ [s2.equity.getLastD 1 * (1 + final_pnl)],
        position := s2.position, entry_price := s2.entry_price }
  else s2

/-- The final loop state of a full `run_backtest` run (an empty index range,
in particular when `len(candles) < min_window`, leaves the initial state). -/
def runBacktestState (candles : List Candle) (rsi_buy rsi_sell : ℚ) (min_window : ℕ) :
    BTState :=
  (List.range' min_window (candles.length - min_window)).foldl
    (btStep candles rsi_buy rsi_sell) initState

/-- `run_backtest` (`backtest.py` lines 18-58): returns `(trades, equity_curve)`,
short-circuiting to `([], [1.0])` when fewer than `min_window` candles. -/
def run_backtest (candles : List Candle) (rsi_buy rsi_sell : ℚ) (min_window : ℕ) :
    List ℚ × List ℚ :=
  if candles.length < min_window then ([], [1])
  else
    let s := runBacktestState candles rsi_buy rsi_sell min_window
    (s.trades, s.equity)

/-- On a FLAT state a loop iteration is the identity: the EXIT block needs
`position == 1`, the ENTRY block needs `direction == "bullish"` while the
direction is always `"neutral"`, and the force-close block needs
`position == 1`. -/
theorem btStep_flat (candles : List Candle) (rsi_buy rsi_sell : ℚ) (i : ℕ)
    (s : BTState) (h : s.position = 0) : btStep candles rsi_buy rsi_sell s i = s := by
  have hnb : (backtestDirection = "bullish") = False := by simp [backtestDirection]
  simp [btStep, hnb, h]

/-- Folding the loop from any FLAT state leaves the state unchanged. -/
theorem foldl_btStep_flat (candles : List Candle) (rsi_buy rsi_sell : ℚ) :
    ∀ (l : List ℕ) (s : BTState), s.position = 0 →
      l.foldl (btStep candles rsi_buy rsi_sell) s = s := by
  intro l
  induction l with
  | nil => intro s _; rfl
  | cons a l ih =>
    intro s h
    rw [List.foldl_cons, btStep_flat candles rsi_buy rsi_sell a s h, ih s h]

/-- Every full run ends in the initial state. -/
theorem runBacktestState_eq_init (candles : List Candle) (rsi_buy rsi_sell : ℚ)
    (min_window : ℕ) :
    runBacktestState candles rsi_buy rsi_sell min_window = initState := by
  unfold runBacktestState
  exact foldl_btStep_flat candles rsi_buy rsi_sell _ initState (by rfl)

/-- Every run returns an empty ledger and the one-element equity curve:
no entry can ever fire because the direction is always `"neutral"`. -/
theorem run_backtest_eq (candles : List Candle) (rsi_buy rsi_sell : ℚ)
    (min_window : ℕ) :
    run_backtest candles rsi_buy rsi_sell min_window = ([], [1]) := by
  unfold run_backtest
  rw [runBacktestState_eq_init]
  split <;> rfl

end Backtest

/-- C2: after a full simulation run the position state is FLAT (`position = 0`
in the source's encoding).  This holds for every bar series and configuration
— though vacuously: the always-`"neutral"` direction means no entry ever
fires, so no position is ever open at series end to be force-closed.  (Had a
position been open, the in-loop force-close block records the trade at the
final bar's close but never resets `position`.) -/
theorem c2_final_position_flat (candles : List Candle) (rsi_buy rsi_sell : ℚ)
    (min_window : ℕ) :
    (Backtest.runBacktestState candles rsi_buy rsi_sell min_window).position = 0 := by
  rw [Backtest.runBacktestState_eq_init]
  rfl

/-- C4: the equity curve of every run is exactly the left scan of the trade
ledger under `equity * (1 + pnl)` starting at 1.0 — i.e. `equity[0] = 1.0`,
`equity[k] = equity[k-1] * (1 + trades[k-1])`, and the curve has exactly one
more element than the ledger.  (Both sides are `[1.0]`: the ledger is always
empty.) -/
theorem c4_equity_curve_scanl (candles : List Candle) (rsi_buy rsi_sell : ℚ)
    (min_window : ℕ) :
    (Backtest.run_backtest candles rsi_buy rsi_sell min_window).2 =
      (Backtest.run_backtest candles rsi_buy rsi_sell min_window).1.scanl
        (fun e pnl => e * (1 + pnl)) 1 ∧
    (Backtest.run_backtest candles rsi_buy rsi_sell min_window).2.length =
      (Backtest.run_backtest candles rsi_buy rsi_sell min_window).1.length + 1 := by
  rw [Backtest.run_backtest_eq]
  exact ⟨rfl, rfl⟩

/-- 200 bars with strictly increasing closes 1, 2, …, 200. -/
def candles200 : List Candle :=
  (List.range 200).map fun (i : ℕ) =>
    { open_time := (i : ℤ), open_price := ((i + 1 : ℕ) : ℚ), high := ((i + 1 : ℕ) : ℚ),
      low := ((i + 1 : ℕ) : ℚ), close := ((i + 1 : ℕ) : ℚ), volume := 1 }

/-- C1: on 200 strictly increasing closes with the default thresholds
(rsi_buy=60, rsi_sell=70, min_window=50) the claim expects at least one long
entry, a non-empty ledger and a strictly positive total return; the code
instead produces no entry at all, an empty ledger and a total return of 0
(equity stays `[1.0]`), because the entry condition
`direction == "bullish"` compares against a key the signal dict never has
and a signal computed from swapped arguments — it is dead code. -/
theorem c1_increasing_series_no_entry :
    List.Chain' (· < ·) (candles200.map (·.close)) ∧
    Backtest.run_backtest candles200 60 70 50 = ([], [1]) := by
  refine ⟨?_, Backtest.run_backtest_eq candles200 60 70 50⟩
  have hm : candles200.map (·.close) = (List.range 200).map (fun i => ((i + 1 : ℕ) : ℚ)) := by
    simp only [candles200, List.map_map]
    rfl
  rw [hm, List.chain'_map, show (200 : ℕ) = 199 + 1 from rfl, List.chain'_range_succ]
  intro m _
  exact_mod_cast Nat.lt_succ_self (m + 1)

namespace Metrics

/-- Elementwise checked computation over a list: `none` as soon as one element
fails, modelling an inf/NaN contaminating a numpy array. -/
def checkedMap {α β : Type} (f : α → Option β) : List α → Option (List β)
  | [] => some []
  | a :: l =>
    match f a, checkedMap f l with
    | some b, some bs => some (b :: bs)
    | _, _ => none

/-- `np.min`: raises `ValueError` on an empty array (`none` here). -/
def npMin? : List ℚ → Option ℚ
  | [] => none
  | a :: l => some (l.foldl min a)

/-- `np.mean` of a non-empty list (numpy yields NaN on an empty one; callers
below guard every use by non-emptiness, exactly as the source's ternaries do). -/
def listMean (l : List ℚ) : ℚ := l.sum / (l.length : ℚ)

/-- numpy population variance; `std > 0` iff `var > 0` for non-empty data,
which is how every `std() > 0` guard of the source is modelled. -/
def npVar (l : List ℚ) : ℚ := ((l.map (fun x => (x - listMean l) ^ 2)).sum) / (l.length : ℚ)

/-- `trades_arr[trades_arr > 0]` (`backtest_metrics.py` line 27). -/
def winsOf (trades : List ℚ) : List ℚ := trades.filter (fun t => 0 < t)

/-- `trades_arr[trades_arr < 0]` (line 28). -/
def lossesOf (trades : List ℚ) : List ℚ := trades.filter (fun t => t < 0)

/-- `returns = np.diff(equity_arr) / equity_arr[:-1]` (line 41); a zero
denominator would put inf/NaN in the array. -/
def returnsOf (equity : List ℚ) : Option (List ℚ) :=
  checkedMap (fun p => if p.1 = 0 then none else some ((p.2 - p.1) / p.1))
    (equity.zip equity.tail)

/-- `np.maximum.accumulate(equity_arr)` (line 55). -/
def runningMax : List ℚ → List ℚ
  | [] => []
  | h :: t => t.scanl max h

/-- `drawdowns = (equity_arr - running_max) / running_max` (line 56). -/
def drawdownsOf (equity : List ℚ) : Option (List ℚ) :=
  checkedMap (fun p => if p.2 = 0 then none else some ((p.1 - p.2) / p.2))
    (equity.zip (runningMax equity))

/-- State of the consecutive win/loss scan (lines 71-74). -/
structure StreakState where
  cw : ℕ
  maxw : ℕ
  cl : ℕ
  maxl : ℕ
deriving DecidableEq, Repr

/-- One iteration of the streak loop (lines 76-84): a trade with
`trade > 0` extends the winning streak, any other trade — including a
zero-pnl trade — extends the losing streak and resets the winning one. -/
def streakStep (st : StreakState) (t : ℚ) : StreakState :=
  if 0 < t then ⟨st.cw + 1, max st.maxw (st.cw + 1), 0, st.maxl⟩
  else ⟨0, st.maxw, st.cl + 1, max st.maxl (st.cl + 1)⟩

/-- The full streak scan over the ledger. -/
def streakScan (trades : List ℚ) : StreakState := trades.foldl streakStep ⟨0, 0, 0, 0⟩

/-- The early-return mapping for an empty ledger (lines 15-20). -/
structure EmptyMetrics where
  error : String
  total_trades : ℕ
  total_return_pct : ℚ
deriving DecidableEq, Repr

/-- The full metrics mapping (lines 86-104).  The source's `sharpe_ratio` and
`sortino_ratio` values are `mean/std*sqrt(252)`, irrational in general; the
fields `sharpe` and `sortino` record the defining pair (mean of returns,
variance of the respective denominator's data) — the float value is finite
exactly when the recorded variance is positive or the zero-fallback pair
`(0, 0)` was taken.  `calmar` and `recovery_factor` stand for the source's
`calmar_ratio` and `recovery_factor`. -/
structure FullMetrics where
  total_trades : ℕ
  wins : ℕ
  losses : ℕ
  win_rate_pct : ℚ
  profit_factor : ℚ
  avg_win_pct : ℚ
  avg_loss_pct : ℚ
  max_consecutive_wins : ℕ
  max_consecutive_losses : ℕ
  gross_profit_pct : ℚ
  gross_loss_pct : ℚ
  max_dd_pct : ℚ
  sharpe : ℚ × ℚ
  sortino : ℚ × ℚ
  calmar : ℚ
  recovery_factor : ℚ
  total_return_pct : ℚ
deriving DecidableEq, Repr

/-- Result of `calculate_metrics`: the empty-ledger error mapping or the full
mapping. -/
inductive MetricsResult where
  | err (e : EmptyMetrics)
  | ok (m : FullMetrics)
deriving DecidableEq, Repr

/-- `calculate_metrics` (`app/services/backtest_metrics.py` lines 4-104).
`none` models a float hazard: a division by zero inside the returns or
drawdown arrays, or the `ValueError`/`IndexError` that `np.min` and
`equity_arr[-1]` raise on an empty equity curve.  All other degenerate cases
are guarded by the source's own ternaries and stay total. -/
def calculate_metrics (trades equity : List ℚ) : Option MetricsResult :=
  if trades.length = 0 then
    some (.err { error := "No trades executed", total_trades := 0, total_return_pct := 0 })
  else do
    let total_trades := trades.length
    let wins := (winsOf trades).length
    let losses := (lossesOf trades).length
    let win_rate : ℚ := if 0 < total_trades then (wins : ℚ) / (total_trades : ℚ) * 100 else 0
    let gross_profit : ℚ := if (winsOf trades).length ≠ 0 then (winsOf trades).sum else 0
    let gross_loss : ℚ := if (lossesOf trades).length ≠ 0 then |(lossesOf trades).sum| else 0.01
    let profit_factor : ℚ := if 0 < gross_loss then gross_profit / gross_loss else 0
    let avg_win : ℚ := if (winsOf trades).length ≠ 0 then listMean (winsOf trades) * 100 else 0
    let avg_loss : ℚ := if (lossesOf trades).length ≠ 0 then listMean (lossesOf trades) * 100 else 0
    let rs ← returnsOf equity
    let sharpeP : ℚ × ℚ := if rs ≠ [] ∧ 0 < npVar rs then (listMean rs, npVar rs) else (0, 0)
    let downside := rs.filter (fun r => r < 0)
    let sortinoP : ℚ × ℚ :=
      if downside ≠ [] ∧ 0 < npVar downside then (listMean rs, npVar downside) else sharpeP
    let dds ← drawdownsOf equity
    let mddFrac ← npMin? dds
    let max_dd := mddFrac * 100
    let lastE ← equity.getLast?
    let total_return_pct := (lastE - 1) * 100
    let recovery_factor : ℚ := if max_dd ≠ 0 then total_return_pct / |max_dd| else 0
    let calmar : ℚ := if max_dd ≠ 0 then total_return_pct / |max_dd| else 0
    let st := streakScan trades
    some (.ok
      { total_trades := total_trades, wins := wins, losses := losses,
        win_rate_pct := pyRound2 win_rate, profit_factor := pyRound2 profit_factor,
        avg_win_pct := pyRound2 avg_win, avg_loss_pct := pyRound2 avg_loss,
        max_consecutive_wins := st.maxw, max_consecutive_losses := st.maxl,
        gross_profit_pct := pyRound2 (gross_profit * 100),
        gross_loss_pct := pyRound2 (gross_loss * 100),
        max_dd_pct := pyRound2 max_dd, sharpe := sharpeP, sortino := sortinoP,
        calmar := pyRound2 calmar, recovery_factor := pyRound2 recovery_factor,
        total_return_pct := pyRound2 total_return_pct })

theorem checkedMap_isSome {α β : Type} (f : α → Option β) :
    ∀ l : List α, (∀ a ∈ l, (f a).isSome) → ∃ ys, checkedMap f l = some ys := by
  intro l
  induction l with
  | nil => intro _; exact ⟨[], rfl⟩
  | cons a l ih =>
    intro h
    obtain ⟨b, hb⟩ := Option.isSome_iff_exists.mp (h a (List.mem_cons_self a l))
    obtain ⟨ys, hys⟩ := ih fun x hx => h x (List.mem_cons_of_mem a hx)
    exact ⟨b :: ys, by simp [checkedMap, hb, hys]⟩

theorem checkedMap_length {α β : Type} (f : α → Option β) :
    ∀ (l : List α) (ys : List β), checkedMap f l = some ys → ys.length = l.length := by
  intro l
  induction l with
  | nil => intro ys h; simp [checkedMap] at h; simp [← h]
  | cons a l ih =>
    intro ys h
    unfold checkedMap at h
    rcases hfa : f a with _ | b <;> rw [hfa] at h
    · exact absurd h (by simp)
    · rcases hcm : checkedMap f l with _ | bs <;> rw [hcm] at h
      · exact absurd h (by simp)
      · obtain rfl : b :: bs = ys := by simpa using h
        simp [ih bs hcm]

theorem scanl_max_pos (t : List ℚ) :
    ∀ a : ℚ, 0 < a → (∀ x ∈ t, 0 < x) → ∀ y ∈ t.scanl max a, 0 < y := by
  induction t with
  | nil =>
    intro a ha _ y hy
    rw [List.scanl_nil, List.mem_singleton] at hy
    exact hy ▸ ha
  | cons x t ih =>
    intro a ha hx y hy
    rw [List.scanl_cons] at hy
    rcases List.mem_append.mp hy with h1 | h2
    · rw [List.mem_singleton] at h1
      exact h1 ▸ ha
    · exact ih (max a x) (lt_max_of_lt_left ha) (fun z hz => hx z (List.mem_cons_of_mem x hz)) y h2

theorem runningMax_pos (l : List ℚ) (h : ∀ x ∈ l, 0 < x) : ∀ y ∈ runningMax l, 0 < y := by
  cases l with
  | nil => intro y hy; simp [runningMax] at hy
  | cons a t =>
    exact scanl_max_pos t a (h a (List.mem_cons_self a t))
      (fun x hx => h x (List.mem_cons_of_mem a hx))

theorem runningMax_length (l : List ℚ) : (runningMax l).length = l.length := by
  cases l with
  | nil => rfl
  | cons a t => simp [runningMax, List.length_scanl]

end Metrics

/-- C7: an empty trade ledger short-circuits `calculate_metrics` into the
explicitly error-flagged mapping — an `error` message, zero `total_trades`,
zero `total_return_pct` — before any division is attempted, for every equity
curve. -/
theorem c7_empty_ledger_error (equity : List ℚ) :
    Metrics.calculate_metrics [] equity =
      some (Metrics.MetricsResult.err
        { error := "No trades executed", total_trades := 0, total_return_pct := 0 }) := by
  rfl

/-- C8: for a non-empty ledger and a non-empty, everywhere-positive equity
curve the checked computation succeeds — every division performed by
`calculate_metrics` has a nonzero denominator and every degenerate case (no
losing trades, zero variance of returns, zero drawdown) is resolved by the
source's explicit fallback branches, so every field of the full metrics
mapping is a well-defined finite value. -/
theorem c8_metrics_all_finite (trades equity : List ℚ) (ht : trades ≠ [])
    (he : equity ≠ []) (hpos : ∀ x ∈ equity, 0 < x) :
    ∃ m, Metrics.calculate_metrics trades equity = some (Metrics.MetricsResult.ok m) := by
  have hlen : ¬ trades.length = 0 := by
    intro h0
    exact ht (List.length_eq_zero.mp h0)
  obtain ⟨rs, hrs⟩ : ∃ rs, Metrics.returnsOf equity = some rs := by
    apply Metrics.checkedMap_isSome
    intro p hp
    have h1 : p.1 ∈ equity := by
      rcases p with ⟨a, b⟩
      exact (List.of_mem_zip hp).1
    have := hpos _ h1
    simp [if_neg (ne_of_gt this)]
  obtain ⟨dds, hdds⟩ : ∃ dds, Metrics.drawdownsOf equity = some dds := by
    apply Metrics.checkedMap_isSome
    intro p hp
    have h2 : p.2 ∈ Metrics.runningMax equity := by
      rcases p with ⟨a, b⟩
      exact (List.of_mem_zip hp).2
    have := Metrics.runningMax_pos equity hpos _ h2
    simp [if_neg (ne_of_gt this)]
  have hddsne : dds ≠ [] := by
    have hldds := Metrics.checkedMap_length _ _ dds hdds
    have : (equity.zip (Metrics.runningMax equity)).length = equity.length := by
      simp [List.length_zip, Metrics.runningMax_length]
    rw [this] at hldds
    intro hnil
    rw [hnil] at hldds
    exact he (List.length_eq_zero.mp hldds.symm)
  obtain ⟨mdd, hmdd⟩ : ∃ m, Metrics.npMin? dds = some m := by
    cases dds with
    | nil => exact absurd rfl hddsne
    | cons a l => exact ⟨l.foldl min a, rfl⟩
  obtain ⟨lastE, hlast⟩ : ∃ x, equity.getLast? = some x :=
    Option.isSome_iff_exists.mp (List.getLast?_isSome.mpr he)
  rw [Metrics.calculate_metrics, if_neg hlen]
  simp only [Option.bind_eq_bind, Option.some_bind, hrs, hdds, hmdd, hlast]
  exact ⟨_, rfl⟩

/-- Witness for `c8_metrics_all_finite`: one winning trade of +10% with the
matching equity curve `[1.0, 1.1]`. -/
theorem c8_metrics_all_finite_witness :
    ([(0.1 : ℚ)] ≠ ([] : List ℚ)) ∧ ([(1 : ℚ), 1.1] ≠ ([] : List ℚ)) ∧
    (∀ x ∈ [(1 : ℚ), 1.1], 0 < x) ∧
    ∃ m, Metrics.calculate_metrics [(0.1 : ℚ)] [1, 1.1] =
      some (Metrics.MetricsResult.ok m) := by
  refine ⟨by simp, by simp, ?_, ?_⟩
  · intro x hx
    rcases List.mem_cons.mp hx with rfl | hx
    · norm_num
    · rcases List.mem_singleton.mp hx with rfl
      norm_num
  · exact c8_metrics_all_finite [0.1] [1, 1.1] (by simp) (by simp)
      (by
        intro x hx
        rcases List.mem_cons.mp hx with rfl | hx
        · norm_num
        · rcases List.mem_singleton.mp hx with rfl
          norm_num)

/-- C10: a zero-pnl trade is counted in `total_trades` (the ledger length)
but in neither `wins` (`trade > 0`) nor `losses` (`trade < 0`), so
`wins + losses` falls strictly short of `total_trades` and the win rate
treats it as a non-win; yet the streak scan's `else` branch treats the same
trade as a loss: after the prefix `pre ++ [0]` the running winning streak is
reset to 0 and the running losing streak is extended by one (updating the
maximum losing streak accordingly). -/
theorem c10_zero_pnl_classification (pre post : List ℚ) :
    (pre ++ 0 :: post).length = (pre ++ post).length + 1 ∧
    (Metrics.winsOf (pre ++ 0 :: post)).length = (Metrics.winsOf (pre ++ post)).length ∧
    (Metrics.lossesOf (pre ++ 0 :: post)).length = (Metrics.lossesOf (pre ++ post)).length ∧
    (Metrics.winsOf (pre ++ 0 :: post)).length + (Metrics.lossesOf (pre ++ 0 :: post)).length <
      (pre ++ 0 :: post).length ∧
    (Metrics.streakScan (pre ++ [0])).cw = 0 ∧
    (Metrics.streakScan (pre ++ [0])).cl = (Metrics.streakScan pre).cl + 1 ∧
    (Metrics.streakScan (pre ++ [0])).maxl =
      max (Metrics.streakScan pre).maxl ((Metrics.streakScan pre).cl + 1) := by
  have hwin : Metrics.winsOf (pre ++ 0 :: post) = Metrics.winsOf (pre ++ post) := by
    simp [Metrics.winsOf, List.filter_append]
  have hloss : Metrics.lossesOf (pre ++ 0 :: post) = Metrics.lossesOf (pre ++ post) := by
    simp [Metrics.lossesOf, List.filter_append]
  have hle : ∀ l : List ℚ,
      (Metrics.winsOf l).length + (Metrics.lossesOf l).length ≤ l.length := by
    intro l
    induction l with
    | nil => simp [Metrics.winsOf, Metrics.lossesOf]
    | cons a l ih =>
      simp only [Metrics.winsOf, Metrics.lossesOf, List.filter_cons] at ih ⊢
      rcases lt_trichotomy a 0 with hlt | heq | hgt
      · rw [if_neg (by simpa using not_lt_of_gt hlt), if_pos (by simpa using hlt)]
        simp only [List.length_cons]
        omega
      · rw [if_neg (by simp [heq]), if_neg (by simp [heq])]
        simp only [List.length_cons]
        omega
      · rw [if_pos (by simpa using hgt), if_neg (by simpa using not_lt_of_gt hgt)]
        simp only [List.length_cons]
        omega
  have hstreak : Metrics.streakScan (pre ++ [0]) =
      Metrics.streakStep (Metrics.streakScan pre) 0 := by
    simp [Metrics.streakScan, List.foldl_append]
  have hstep : Metrics.streakStep (Metrics.streakScan pre) 0 =
      ⟨0, (Metrics.streakScan pre).maxw, (Metrics.streakScan pre).cl + 1,
        max (Metrics.streakScan pre).maxl ((Metrics.streakScan pre).cl + 1)⟩ := by
    simp [Metrics.streakStep]
  refine ⟨by simp only [List.length_append, List.length_cons]; omega,
    by rw [hwin], by rw [hloss], ?_, ?_, ?_, ?_⟩
  · rw [hwin, hloss]
    calc (Metrics.winsOf (pre ++ post)).length + (Metrics.lossesOf (pre ++ post)).length
        ≤ (pre ++ post).length := hle (pre ++ post)
      _ < (pre ++ 0 :: post).length := by
        simp only [List.length_append, List.length_cons]
        omega
  · rw [hstreak, hstep]
  · rw [hstreak, hstep]
  · rw [hstreak, hstep]

namespace Stat

/-- Result of `AdvancedStatisticalEngine.calculate_kelly_criterion`
(`app/services/advanced_statistical_engine.py` lines 34-87).  The degenerate
branch's dict has no `trade_confidence` key, hence the `Option`. -/
structure KellyResult where
  kelly_fraction : ℚ
  adjusted_kelly : ℚ
  position_size : ℚ
  trade_confidence : Option ℚ
deriving DecidableEq, Repr

/-- `calculate_kelly_criterion`, translated line by line;
`initial_capital` is the engine's constructor field (`self.initial_capital`). -/
def calculate_kelly_criterion (initial_capital win_rate avg_win avg_loss : ℚ)
    (total_trades : ℕ) : KellyResult :=
  if avg_loss ≤ 0 ∨ total_trades < 5 then
    { kelly_fraction := 0.02, adjusted_kelly := 0.01,
      position_size := initial_capital * 0.01, trade_confidence := none }
  else
    let b_val := if 0 < avg_loss then avg_win / avg_loss else 1
    let w := win_rate
    let l := 1 - win_rate
    let kelly_raw := if 0 < b_val then (w * b_val - l) / b_val else 0
    let kelly_fraction := max 0.001 (min kelly_raw 0.25)
    let trade_confidence := min 1 ((total_trades : ℚ) / 100)
    let adjusted_kelly := kelly_fraction * trade_confidence * 0.5
    { kelly_fraction := kelly_fraction, adjusted_kelly := adjusted_kelly,
      position_size := initial_capital * adjusted_kelly,
      trade_confidence := some trade_confidence }

end Stat

/-- C6: with `avg_loss > 0`, `0 < win_rate < 1` and at least 5 trades the
non-degenerate branch runs and returns
`kelly_fraction = max(0.001, min(kelly_raw, 0.25))`, which lies in
`[0, 0.25]` (indeed in `[0.001, 0.25]`) whatever `kelly_raw` is. -/
theorem c6_kelly_fraction_bounds (initial_capital win_rate avg_win avg_loss : ℚ)
    (total_trades : ℕ) (hl : 0 < avg_loss) (hw0 : 0 < win_rate) (hw1 : win_rate < 1)
    (htt : 5 ≤ total_trades) :
    0 ≤ (Stat.calculate_kelly_criterion initial_capital win_rate avg_win avg_loss
        total_trades).kelly_fraction ∧
    (Stat.calculate_kelly_criterion initial_capital win_rate avg_win avg_loss
        total_trades).kelly_fraction ≤ 0.25 := by
  have hcond : ¬(avg_loss ≤ 0 ∨ total_trades < 5) := by
    push_neg
    exact ⟨hl, htt⟩
  simp only [Stat.calculate_kelly_criterion, if_neg hcond]
  constructor
  · exact le_trans (by norm_num) (le_max_left (0.001 : ℚ) _)
  · exact max_le (by norm_num) (min_le_right _ (0.25 : ℚ))

/-- Witness for `c6_kelly_fraction_bounds` at capital 10000, win rate 1/2,
average win 2, average loss 1, 10 trades. -/
theorem c6_kelly_fraction_bounds_witness :
    (0 : ℚ) < 1 ∧ (0 : ℚ) < 1/2 ∧ (1/2 : ℚ) < 1 ∧ (5 : ℕ) ≤ 10 ∧
    (0 ≤ (Stat.calculate_kelly_criterion 10000 (1/2) 2 1 10).kelly_fraction ∧
      (Stat.calculate_kelly_criterion 10000 (1/2) 2 1 10).kelly_fraction ≤ 0.25) :=
  ⟨by norm_num, by norm_num, by norm_num, by norm_num,
    c6_kelly_fraction_bounds 10000 (1/2) 2 1 10 (by norm_num) (by norm_num)
      (by norm_num) (by norm_num)⟩

namespace VP

/-- `np.linspace(a, b, n+1)`: `n+1` evenly spaced points from `a` to `b`. -/
def linspace (a b : ℚ) (n : ℕ) : List ℚ :=
  (List.range (n + 1)).map fun i => a + (b - a) * (i : ℚ) / (n : ℚ)

/-- `bin_centers = (bins[:-1] + bins[1:]) / 2`
(`app/services/volume_profile_engine.py` line 71). -/
def binCenters (bins : List ℚ) : List ℚ :=
  (bins.zip bins.tail).map fun p => (p.1 + p.2) / 2

/-- Distribution of one candle's volume over the bins proportionally to
overlap (lines 87-97); a point candle (`high == low`) contributes its full
volume to every bin its price touches (`overlap = 1.0`). -/
def distributeCandle (bins : List ℚ) (num_bins : ℕ) (c : Candle) (dist : List ℚ) : List ℚ :=
  (List.range num_bins).foldl
    (fun d j =>
      let bin_low := bins.getD j 0
      let bin_high := bins.getD (j + 1) 0
      if c.low ≤ bin_high ∧ bin_low ≤ c.high then
        let overlap : ℚ :=
          if c.low < c.high then (min bin_high c.high - max bin_low c.low) / (c.high - c.low)
          else 1
        d.set j (d.getD j 0 + c.volume * overlap)
      else d)
    dist

/-- `volume_distribution` accumulated over all candles (lines 74-97); the
`np.digitize` result of lines 78-79 is computed by the source but never used
afterwards and is omitted. -/
def volumeDistribution (bins : List ℚ) (num_bins : ℕ) (candles : List Candle) : List ℚ :=
  candles.foldl (fun d c => distributeCandle bins num_bins c d) (List.replicate num_bins 0)

/-- `np.argmax`: index of the first maximal element. -/
def argmaxFirst (l : List ℚ) : ℕ :=
  (l.foldl
    (fun (acc : ℕ × ℕ × ℚ) v =>
      if acc.2.2 < v then (acc.1 + 1, acc.1, v) else (acc.1 + 1, acc.2.1, acc.2.2))
    (0, 0, l.headD 0)).2.1

/-- State of the value-area expansion loop (lines 111-113):
`lower_idx`, `upper_idx`, `value_area_volume`. -/
structure VAState where
  lo : ℕ
  hi : ℕ
  vol : ℚ
deriving DecidableEq, Repr

/-- `lower_vol = volume_distribution[lower_idx - 1] if lower_idx > 0 else 0`
(line 117). -/
def lowerVol (dist : List ℚ) (s : VAState) : ℚ :=
  if 0 < s.lo then dist.getD (s.lo - 1) 0 else 0

/-- `upper_vol = volume_distribution[upper_idx + 1] if upper_idx < num_bins - 1
else 0` (line 118). -/
def upperVol (dist : List ℚ) (num_bins : ℕ) (s : VAState) : ℚ :=
  if s.hi < num_bins - 1 then dist.getD (s.hi + 1) 0 else 0

/-- The `while value_area_volume < value_area_threshold` loop (lines 115-131),
fuel-indexed: each non-terminal iteration widens the window by one bin, so
`num_bins` fuel is enough for a full run. -/
def vaLoop (dist : List ℚ) (num_bins : ℕ) (threshold : ℚ) : ℕ → VAState → VAState
  | 0, s => s
  | fuel + 1, s =>
    if s.vol < threshold then
      let lv := lowerVol dist s
      let uv := upperVol dist num_bins s
      if lv = 0 ∧ uv = 0 then s
      else if uv < lv ∧ 0 < s.lo then
        vaLoop dist num_bins threshold fuel ⟨s.lo - 1, s.hi, s.vol + lv⟩
      else if s.hi < num_bins - 1 then
        vaLoop dist num_bins threshold fuel ⟨s.lo, s.hi + 1, s.vol + uv⟩
      else s
    else s

/-- The expansion loop as the claim's sentence describes it: grow toward the
neighboring bin with more volume, and when the two neighbors hold EQUAL
volume expand DOWNWARD (toward lower prices) first.  Written from the spec's
words, to be compared with the source's `vaLoop`. -/
def vaLoopDownTies (dist : List ℚ) (num_bins : ℕ) (threshold : ℚ) : ℕ → VAState → VAState
  | 0, s => s
  | fuel + 1, s =>
    if s.vol < threshold then
      let lv := lowerVol dist s
      let uv := upperVol dist num_bins s
      if lv = 0 ∧ uv = 0 then s
      else if lv < uv ∧ s.hi < num_bins - 1 then
        vaLoopDownTies dist num_bins threshold fuel ⟨s.lo, s.hi + 1, s.vol + uv⟩
      else if 0 < s.lo then
        vaLoopDownTies dist num_bins threshold fuel ⟨s.lo - 1, s.hi, s.vol + lv⟩
      else if s.hi < num_bins - 1 then
        vaLoopDownTies dist num_bins threshold fuel ⟨s.lo, s.hi + 1, s.vol + uv⟩
      else s
    else s

/-- Result mapping of `calculate_volume_profile`; `volume_profile` is the
`{bin_center: volume}` dict as an association list in bin order. -/
structure VPResult where
  poc : ℚ
  vah : ℚ
  val : ℚ
  volume_profile : List (ℚ × ℚ)
  total_volume : ℚ
  num_bins : ℕ
deriving DecidableEq, Repr

/-- `_empty_volume_profile` (lines 156-165). -/
def _empty_volume_profile : VPResult :=
  { poc := 0, vah := 0, val := 0, volume_profile := [], total_volume := 0, num_bins := 0 }

/-- `calculate_volume_profile` (lines 22-153).  A `lookback_period` of `None`
or `0` is falsy and leaves the candle list whole.  With `num_bins = 0`,
`np.argmax` of the empty distribution raises `ValueError`, the surrounding
`except` returns the empty profile — the explicit branch here. -/
def calculate_volume_profile (candles0 : List Candle) (num_bins : ℕ)
    (lookback_period : Option ℕ) : VPResult :=
  if candles0 = [] then _empty_volume_profile
  else
    let candles :=
      match lookback_period with
      | some lb =>
        if lb ≠ 0 ∧ lb < candles0.length then candles0.drop (candles0.length - lb) else candles0
      | none => candles0
    if candles.length < 10 then _empty_volume_profile
    else
      let highs := candles.map (·.high)
      let lows := candles.map (·.low)
      let price_min := lows.tail.foldl min (lows.headD 0)
      let price_max := highs.tail.foldl max (highs.headD 0)
      if price_max ≤ price_min ∨ price_max = 0 then _empty_volume_profile
      else if num_bins = 0 then _empty_volume_profile
      else
        let bins := linspace price_min price_max num_bins
        let centers := binCenters bins
        let dist := volumeDistribution bins num_bins candles
        let poc_idx := argmaxFirst dist
        let total_volume := dist.sum
        if total_volume = 0 then _empty_volume_profile
        else
          let threshold := total_volume * 0.70
          let s := vaLoop dist num_bins threshold num_bins ⟨poc_idx, poc_idx, dist.getD poc_idx 0⟩
          { poc := centers.getD poc_idx 0, vah := centers.getD s.hi 0,
            val := centers.getD s.lo 0,
            volume_profile := (centers.zip dist).filter (fun p => 0 < p.2),
            total_volume := total_volume, num_bins := num_bins }

end VP

/-- A point candle: open/high/low/close at `p`, volume 1. -/
def pointCandle (p : ℚ) : Candle :=
  { open_time := 0, open_price := p, high := p, low := p, close := p, volume := 1 }

/-- Ten point candles giving the bin distribution `[2, 6, 2]` over three bins
on the span `[1/2, 5/2]`: a symmetric tie around the point of control. -/
def candles10 : List Candle :=
  List.replicate 2 (pointCandle (1/2)) ++ List.replicate 6 (pointCandle (3/2)) ++
    List.replicate 2 (pointCandle (5/2))

unseal Rat.add Rat.mul Rat.inv Rat.sub Rat.ofScientific in
/-- C5 counterexample: on `candles10` with 3 bins the distribution is
`[2, 6, 2]` (POC = middle bin, threshold `0.7·10 = 7`), the two neighbors of
the POC hold equal volume (2 each), and the source expands UPWARD:
`(val, vah) = (3/2, 13/6)` (bins 1..2).  The claim's downward tie-break would
instead produce the window bins 0..1 with value-area low `5/6` — so the
code's value area differs from the claim's described one. -/
theorem c5_tie_expansion_counterexample :
    VP.volumeDistribution (VP.linspace (1/2) (5/2) 3) 3 candles10 = [2, 6, 2] ∧
    (VP.calculate_volume_profile candles10 3 none).val = 3/2 ∧
    (VP.calculate_volume_profile candles10 3 none).vah = 13/6 ∧
    VP.vaLoopDownTies [2, 6, 2] 3 7 3 ⟨1, 1, 6⟩ = ⟨0, 1, 8⟩ ∧
    (VP.binCenters (VP.linspace (1/2) (5/2) 3)).getD
        (VP.vaLoopDownTies [2, 6, 2] 3 7 3 ⟨1, 1, 6⟩).lo 0 = 5/6 ∧
    (VP.calculate_volume_profile candles10 3 none).val ≠
      (VP.binCenters (VP.linspace (1/2) (5/2) 3)).getD
        (VP.vaLoopDownTies [2, 6, 2] 3 7 3 ⟨1, 1, 6⟩).lo 0 := by
  refine ⟨by decide, by decide, by decide, by decide, by decide, by decide⟩

/-- C5 (amended): one step of the source's value-area loop, while accumulated
volume is still below the 70% threshold, expands toward whichever neighboring
bin holds more volume; when the two neighbors hold EQUAL (nonzero) volume it
expands UPWARD (toward higher prices) first; and once the threshold is
reached the loop stops. -/
theorem c5_value_area_greedy_step (dist : List ℚ) (num_bins : ℕ) (threshold : ℚ)
    (fuel : ℕ) (s : VP.VAState) :
    (s.vol < threshold → VP.upperVol dist num_bins s < VP.lowerVol dist s → 0 < s.lo →
      VP.vaLoop dist num_bins threshold (fuel + 1) s =
        VP.vaLoop dist num_bins threshold fuel
          ⟨s.lo - 1, s.hi, s.vol + VP.lowerVol dist s⟩) ∧
    (s.vol < threshold → VP.lowerVol dist s < VP.upperVol dist num_bins s →
      s.hi < num_bins - 1 →
      VP.vaLoop dist num_bins threshold (fuel + 1) s =
        VP.vaLoop dist num_bins threshold fuel
          ⟨s.lo, s.hi + 1, s.vol + VP.upperVol dist num_bins s⟩) ∧
    (s.vol < threshold → VP.lowerVol dist s = VP.upperVol dist num_bins s →
      VP.lowerVol dist s ≠ 0 → s.hi < num_bins - 1 →
      VP.vaLoop dist num_bins threshold (fuel + 1) s =
        VP.vaLoop dist num_bins threshold fuel
          ⟨s.lo, s.hi + 1, s.vol + VP.upperVol dist num_bins s⟩) ∧
    (threshold ≤ s.vol → VP.vaLoop dist num_bins threshold (fuel + 1) s = s) := by
  have hsucc : VP.vaLoop dist num_bins threshold (fuel + 1) s =
      if s.vol < threshold then
        if VP.lowerVol dist s = 0 ∧ VP.upperVol dist num_bins s = 0 then s
        else if VP.upperVol dist num_bins s < VP.lowerVol dist s ∧ 0 < s.lo then
          VP.vaLoop dist num_bins threshold fuel
            ⟨s.lo - 1, s.hi, s.vol + VP.lowerVol dist s⟩
        else if s.hi < num_bins - 1 then
          VP.vaLoop dist num_bins threshold fuel
            ⟨s.lo, s.hi + 1, s.vol + VP.upperVol dist num_bins s⟩
        else s
      else s := rfl
  refine ⟨?_, ?_, ?_, ?_⟩
  · intro hrun hlt hlo
    have hnz : ¬(VP.lowerVol dist s = 0 ∧ VP.upperVol dist num_bins s = 0) := by
      rintro ⟨h1, h2⟩
      rw [h1, h2] at hlt
      exact lt_irrefl 0 hlt
    rw [hsucc, if_pos hrun, if_neg hnz, if_pos ⟨hlt, hlo⟩]
  · intro hrun hlt hhi
    have hnz : ¬(VP.lowerVol dist s = 0 ∧ VP.upperVol dist num_bins s = 0) := by
      rintro ⟨h1, h2⟩
      rw [h1, h2] at hlt
      exact lt_irrefl 0 hlt
    have hnd : ¬(VP.upperVol dist num_bins s < VP.lowerVol dist s ∧ 0 < s.lo) := by
      rintro ⟨h1, _⟩
      exact absurd hlt (not_lt_of_gt h1)
    rw [hsucc, if_pos hrun, if_neg hnz, if_neg hnd, if_pos hhi]
  · intro hrun heq hne hhi
    have hnz : ¬(VP.lowerVol dist s = 0 ∧ VP.upperVol dist num_bins s = 0) := by
      rintro ⟨h1, _⟩
      exact hne h1
    have hnd : ¬(VP.upperVol dist num_bins s < VP.lowerVol dist s ∧ 0 < s.lo) := by
      rintro ⟨h1, _⟩
      rw [heq] at h1
      exact lt_irrefl _ h1
    rw [hsucc, if_pos hrun, if_neg hnz, if_neg hnd, if_pos hhi]
  · intro hstop
    rw [hsucc, if_neg (not_lt.mpr hstop)]

unseal Rat.add Rat.mul Rat.inv Rat.sub Rat.ofScientific in
/-- Witness for `c5_value_area_greedy_step`: the tie state of `candles10`'s
distribution `[2, 6, 2]` — both neighbors hold volume 2, accumulated volume
6 is below threshold 7, and the step expands upward to bins 1..2. -/
theorem c5_value_area_greedy_step_witness :
    ((⟨1, 1, 6⟩ : VP.VAState)).vol < 7 ∧
    VP.lowerVol [2, 6, 2] ⟨1, 1, 6⟩ = VP.upperVol [2, 6, 2] 3 ⟨1, 1, 6⟩ ∧
    VP.lowerVol [2, 6, 2] ⟨1, 1, 6⟩ ≠ 0 ∧
    ((⟨1, 1, 6⟩ : VP.VAState)).hi < 3 - 1 ∧
    VP.vaLoop [2, 6, 2] 3 7 3 ⟨1, 1, 6⟩ = VP.vaLoop [2, 6, 2] 3 7 2 ⟨1, 2, 8⟩ := by
  refine ⟨by decide, by decide, by decide, by decide, ?_⟩
  have h := (c5_value_area_greedy_step [2, 6, 2] 3 7 2 ⟨1, 1, 6⟩).2.2.1
    (by decide) (by decide) (by decide) (by decide)
  have hst : (⟨1, 1 + 1, 6 + VP.upperVol [2, 6, 2] 3 ⟨1, 1, 6⟩⟩ : VP.VAState) =
      ⟨1, 2, 8⟩ := by decide
  rw [h, hst]
